import Mathlib

/-!
Shallow embedding of the finance tracker's ledger core
(`FinanceDatabase` and the relevant parts of `FinanceManager`).

State is modelled explicitly: the SQLite database becomes a `DB` record,
rows become lists kept in insertion (rowid) order, `REAL` amounts become
rationals, and the wall clock (`current_time()`) becomes an explicit
`now : String` argument.  Python exceptions become `Except`.
-/

/-- SQLite compares `TEXT` values with `memcmp` (BINARY collation).
On UTF-8 bytes this is codepoint-lexicographic order, embedded here on
the character lists of the strings. -/
def charListLe : List Char → List Char → Bool
  | [], _ => true
  | _ :: _, [] => false
  | a :: as, b :: bs =>
    if a.toNat < b.toNat then true
    else if b.toNat < a.toNat then false
    else charListLe as bs

/-- BINARY-collation comparison of two text values, as used by the
`timestamp >= ?` / `timestamp <= ?` filters and `ORDER BY timestamp`. -/
def textLe (a b : String) : Bool :=
  charListLe a.data b.data

/-- Row of the `transactions` relation / the `Transaction` dataclass. -/
structure Transaction where
  id : Nat
  account_id : Nat
  timestamp : String
  amount : ℚ
  type : String
  category : String
  description : String
deriving DecidableEq

/-- Row of the `accounts` relation / the `Account` dataclass
(the dataclass's `balance` field is display-only and derived, never stored). -/
structure Account where
  id : Nat
  name : String
  created_at : String
deriving DecidableEq

/-- The persistent state owned by `FinanceDatabase`: the two row sets in
insertion order plus the `AUTOINCREMENT` counters (next rowid for each
table; SQLite AUTOINCREMENT ids start at 1 and are never reused). -/
structure DB where
  accounts : List Account
  next_account_id : Nat
  transactions : List Transaction
  next_txn_id : Nat
deriving DecidableEq

/-- Python exceptions raised by the embedded code paths. -/
inductive PyError where
  | valueError
deriving DecidableEq

/-- `FinanceDatabase._initialize_database` on a fresh database file:
creates the empty relations and, since zero accounts exist, seeds the
default account `("Primary Account", current_time())` with id 1. -/
def initialize_database (now : String) : DB :=
  { accounts := [⟨1, "Primary Account", now⟩]
    next_account_id := 2
    transactions := []
    next_txn_id := 1 }

/-- `FinanceDatabase.add_transaction`: rejects a `transaction_type`
outside income/expense with `ValueError`, otherwise inserts the row with
`timestamp` taken from the clock (`now`) and returns the new rowid.
No other validation happens here: the amount is not checked, and the
declared `FOREIGN KEY(account_id)` is not enforced because the sqlite3
connection never issues `PRAGMA foreign_keys = ON` (enforcement is off by
default), so the insert succeeds for any `account_id`. -/
def add_transaction (db : DB) (account_id : Nat) (now : String) (amount : ℚ)
    (transaction_type category description : String) :
    Except PyError (DB × Nat) :=
  if transaction_type = "income" ∨ transaction_type = "expense" then
    .ok ({ db with
            transactions := db.transactions ++
              [⟨db.next_txn_id, account_id, now, amount,
                transaction_type, category, description⟩]
            next_txn_id := db.next_txn_id + 1 },
         db.next_txn_id)
  else
    .error .valueError

/-- The state reached by an `add_transaction` call: on `ValueError` the
exception propagates before any insert, so the state is unchanged. -/
def txnStep (db : DB) (account_id : Nat) (now : String) (amount : ℚ)
    (transaction_type category description : String) : DB :=
  match add_transaction db account_id now amount transaction_type category description with
  | .ok (db2, _) => db2
  | .error _ => db

/-- The `WHERE` clause of `get_transactions`: rows of the account,
optionally bounded by `timestamp >= start_date` and `timestamp <= end_date`
(BINARY string comparison), in table scan (insertion) order. -/
def txnFilter (db : DB) (account_id : Nat) (start_date end_date : Option String) :
    List Transaction :=
  db.transactions.filter fun t =>
    t.account_id == account_id
    && (match start_date with | none => true | some s => textLe s t.timestamp)
    && (match end_date with | none => true | some e => textLe t.timestamp e)

/-- Insertion step of `ORDER BY timestamp DESC`: the new row is placed
before the first already-sorted row whose timestamp is `<=` its own, so
rows with equal timestamps keep their relative scan order (the SQL names
no secondary sort key; SQLite's sorter leaves ties in scan order). -/
def insertTsDesc (t : Transaction) : List Transaction → List Transaction
  | [] => [t]
  | h :: r =>
    if textLe h.timestamp t.timestamp then t :: h :: r
    else h :: insertTsDesc t r

/-- `ORDER BY timestamp DESC` over the scanned rows: a stable sort by
timestamp descending. -/
def orderByTsDesc : List Transaction → List Transaction
  | [] => []
  | h :: r => insertTsDesc h (orderByTsDesc r)

/-- `FinanceDatabase.get_transactions`: filtered rows ordered by
timestamp descending, then `LIMIT ?`.  The limit is passed straight to
SQLite, which treats a negative `LIMIT` as "no limit" and `LIMIT 0` as
the empty result; the Python code performs no limit validation. -/
def get_transactions (db : DB) (account_id : Nat) (limit : Int)
    (start_date end_date : Option String) : List Transaction :=
  let sorted := orderByTsDesc (txnFilter db account_id start_date end_date)
  if limit < 0 then sorted else sorted.take limit.toNat

/-- Sum of the `amount` column over a list of rows (`SUM(amount)`). -/
def sumAmounts (l : List Transaction) : ℚ :=
  (l.map fun t => t.amount).sum

/-- `FinanceDatabase.get_balance`: `SUM(CASE WHEN type='income' THEN amount
ELSE 0 END) - SUM(CASE WHEN type='expense' ...)` over the account's rows,
with SQL `NULL` (no rows) coerced to 0 by the Python `or 0`.  There is no
account existence check. -/
def get_balance (db : DB) (account_id : Nat) : ℚ :=
  let rows := db.transactions.filter fun t => t.account_id == account_id
  sumAmounts (rows.filter fun t => t.type == "income")
    - sumAmounts (rows.filter fun t => t.type == "expense")

/-- The `WHERE` clause of `get_spending_by_category`: expense rows of the
account within the optional timestamp bounds. -/
def spendingFilter (db : DB) (account_id : Nat) (start_date end_date : Option String) :
    List Transaction :=
  db.transactions.filter fun t =>
    t.account_id == account_id
    && t.type == "expense"
    && (match start_date with | none => true | some s => textLe s t.timestamp)
    && (match end_date with | none => true | some e => textLe t.timestamp e)

/-- One entry of the dict returned by `get_spending_by_category`: the
`SUM(amount) ... GROUP BY category` total of the given category (0 when no
matching expense row exists, i.e. the key is absent from the dict). -/
def get_spending_total (db : DB) (account_id : Nat)
    (start_date end_date : Option String) (category : String) : ℚ :=
  sumAmounts ((spendingFilter db account_id start_date end_date).filter
    fun t => t.category == category)

/-- `FinanceDatabase.add_account`: inserts unconditionally (the schema's
`NOT NULL` is satisfied by any string, the empty one included — the
empty-name guard lives in the UI) and returns the fresh rowid. -/
def add_account (db : DB) (name : String) (now : String) : DB × Nat :=
  ({ db with
      accounts := db.accounts ++ [⟨db.next_account_id, name, now⟩]
      next_account_id := db.next_account_id + 1 },
   db.next_account_id)

/-- The amount guard of `FinanceManager._add_income` / `_add_expense`:
a non-positive amount is rejected at the UI boundary (`return` before any
database call), otherwise the store-level `add_transaction` runs; any
exception it raises is caught by the surrounding handler, leaving the
state unchanged.  Returns the new transaction id when one was created. -/
def manager_add_transaction (db : DB) (account_id : Nat) (now : String) (amount : ℚ)
    (transaction_type category description : String) : DB × Option Nat :=
  if amount ≤ 0 then (db, none)
  else
    match add_transaction db account_id now amount transaction_type category description with
    | .ok (db2, i) => (db2, some i)
    | .error _ => (db, none)

/-- The account-creation branch of `FinanceManager._manage_accounts`:
an empty (stripped) name is rejected at the UI boundary, otherwise
`add_account` inserts and the new id is reported. -/
def manager_create_account (db : DB) (name : String) (now : String) : DB × Option Nat :=
  if name = "" then (db, none)
  else
    let r := add_account db name now
    (r.1, some r.2)

/-- `FinanceManager._get_date_range` on a valid `YYYY-MM-DD` start input:
`datetime.strptime(d, "%Y-%m-%d")` yields a naive (offset-free) datetime
at midnight, and `strftime(ISO_FORMAT)` renders `%z` of a naive datetime
as the empty string, so the resolved bound is the date with `T00:00:00`
appended and no offset suffix. -/
def resolve_start_date (d : String) : String :=
  d ++ "T00:00:00"

/-- `FinanceManager._get_date_range` on a valid `YYYY-MM-DD` end input:
the naive datetime is moved to 23:59:59 and rendered with `%z` empty, so
the resolved bound is the date with `T23:59:59` appended and no offset
suffix (while every stored timestamp carries the `+0000` suffix). -/
def resolve_end_date (d : String) : String :=
  d ++ "T23:59:59"

/-- `format_date_display` on a canonical stored timestamp
`YYYY-MM-DDTHH:MM:SS+0000` (the parse-success path): re-rendered as
`YYYY-MM-DD HH:MM`, i.e. the date part, a space, and the hour:minute part. -/
def format_date_display (timestamp : String) : String :=
  timestamp.take 10 ++ " " ++ (timestamp.drop 11).take 5

/-- Zero-padded decimal rendering of `n` to at least `width` digits. -/
def natPad (n width : Nat) : String :=
  let s := toString n
  String.mk (List.replicate (width - s.length) '0') ++ s

/-- Python `str()` of a float, modelled for amounts whose double value is
exactly the stored rational: Python prints the shortest round-tripping
decimal, which for such values is the minimal decimal form, always with
at least one fractional digit (`str(250.0) = "250.0"`). -/
def pyFloatStr (q : ℚ) : String :=
  let sgn := if q.num < 0 then "-" else ""
  let f := (((List.range 17).find? fun k => 10 ^ (k + 1) % q.den == 0).getD 16) + 1
  let m := q.num.natAbs * 10 ^ f / q.den
  sgn ++ toString (m / 10 ^ f) ++ "." ++ natPad (m % 10 ^ f) f

/-- The fixed CSV header row written by `export_transactions_to_csv`. -/
def csvHeader : List String :=
  ["id", "date", "type", "amount", "category", "description"]

/-- The CSV data row written for one transaction: the id and the raw
float amount go through Python `str()` (csv applies no numeric
formatting), the date through `format_date_display`. -/
def csvRow (t : Transaction) : List String :=
  [toString t.id, format_date_display t.timestamp, t.type,
   pyFloatStr t.amount, t.category, t.description]

/-- `FinanceDatabase.export_transactions_to_csv`, success path (the
file-open failure path returns `False` and writes nothing): the rows of
`get_transactions` with limit 1000000, written as the header followed by
one data row per transaction in query order. -/
def export_transactions_to_csv (db : DB) (account_id : Nat)
    (start_date end_date : Option String) : List (List String) :=
  csvHeader :: (get_transactions db account_id 1000000 start_date end_date).map csvRow

/-- Number of characters after the first decimal point (0 when none). -/
def digitsAfterDot : List Char → Nat
  | [] => 0
  | c :: r => if c = '.' then r.length else digitsAfterDot r

/-- Spec-side predicate for the export-format claim: the rendered amount
field has exactly two digits after the decimal point. -/
def hasTwoDecimalPlaces (s : String) : Bool :=
  digitsAfterDot s.data == 2

theorem charListLe_refl (l : List Char) : charListLe l l = true := by
  induction l with
  | nil => rfl
  | cons a as ih => simp [charListLe, ih]

theorem charListLe_total (a b : List Char) :
    charListLe a b = true ∨ charListLe b a = true := by
  induction a generalizing b with
  | nil => exact Or.inl rfl
  | cons x xs ih =>
    cases b with
    | nil => exact Or.inr rfl
    | cons y ys =>
      by_cases h1 : x.toNat < y.toNat
      · exact Or.inl (by simp [charListLe, h1])
      · by_cases h2 : y.toNat < x.toNat
        · exact Or.inr (by simp [charListLe, h2])
        · rcases ih ys with h | h
          · exact Or.inl (by simp [charListLe, h1, h2, h])
          · exact Or.inr (by simp [charListLe, h1, h2, h])

theorem charListLe_trans {a b c : List Char} (h1 : charListLe a b = true)
    (h2 : charListLe b c = true) : charListLe a c = true := by
  induction a generalizing b c with
  | nil => rfl
  | cons x xs ih =>
    cases b with
    | nil => simp [charListLe] at h1
    | cons y ys =>
      cases c with
      | nil => simp [charListLe] at h2
      | cons z zs =>
        by_cases hxy : x.toNat < y.toNat
        · by_cases hyz : y.toNat < z.toNat
          · simp [charListLe, show x.toNat < z.toNat by omega]
          · by_cases hzy : z.toNat < y.toNat
            · simp [charListLe, hyz, hzy] at h2
            · simp [charListLe, show x.toNat < z.toNat by omega]
        · by_cases hyx : y.toNat < x.toNat
          · simp [charListLe, hxy, hyx] at h1
          · by_cases hyz : y.toNat < z.toNat
            · simp [charListLe, show x.toNat < z.toNat by omega]
            · by_cases hzy : z.toNat < y.toNat
              · simp [charListLe, hyz, hzy] at h2
              · simp only [charListLe, hxy, hyx, if_neg] at h1
                simp only [charListLe, hyz, hzy, if_neg] at h2
                simp only [charListLe,
                  show ¬ x.toNat < z.toNat by omega,
                  show ¬ z.toNat < x.toNat by omega, if_neg, if_false]
                exact ih h1 h2

theorem textLe_refl (s : String) : textLe s s = true :=
  charListLe_refl s.data

theorem textLe_total (a b : String) : textLe a b = true ∨ textLe b a = true :=
  charListLe_total a.data b.data

theorem textLe_trans {a b c : String} (h1 : textLe a b = true)
    (h2 : textLe b c = true) : textLe a c = true :=
  charListLe_trans h1 h2

/-- Invariant of reachable database states: rowids strictly increase along
the table scan (AUTOINCREMENT assigns increasing ids in insertion order). -/
def idAsc (a b : Transaction) : Prop :=
  a.id < b.id

/-- Order actually produced by `ORDER BY timestamp DESC` on an
id-ascending scan: timestamps non-increasing, rows with equal timestamps
in id-ascending (insertion) order. -/
def tsDescIdAsc (a b : Transaction) : Prop :=
  textLe b.timestamp a.timestamp = true ∧ (a.timestamp = b.timestamp → a.id < b.id)

instance : DecidableRel tsDescIdAsc := fun a b => by
  unfold tsDescIdAsc; infer_instance

instance : DecidableRel idAsc := fun a b => by
  unfold idAsc; infer_instance

theorem mem_insertTsDesc {x t : Transaction} {l : List Transaction} :
    x ∈ insertTsDesc t l ↔ x = t ∨ x ∈ l := by
  induction l with
  | nil => simp [insertTsDesc]
  | cons h r ih =>
    by_cases hc : textLe h.timestamp t.timestamp = true
    · simp only [insertTsDesc, if_pos hc, List.mem_cons]
    · simp only [insertTsDesc, if_neg hc, List.mem_cons, ih]
      tauto

theorem mem_orderByTsDesc {x : Transaction} {l : List Transaction} :
    x ∈ orderByTsDesc l ↔ x ∈ l := by
  induction l with
  | nil => simp [orderByTsDesc]
  | cons h r ih => simp [orderByTsDesc, mem_insertTsDesc, ih, List.mem_cons]

theorem length_insertTsDesc (t : Transaction) (l : List Transaction) :
    (insertTsDesc t l).length = l.length + 1 := by
  induction l with
  | nil => rfl
  | cons h r ih =>
    by_cases hc : textLe h.timestamp t.timestamp = true
    · simp [insertTsDesc, hc]
    · simp [insertTsDesc, hc, ih]

theorem length_orderByTsDesc (l : List Transaction) :
    (orderByTsDesc l).length = l.length := by
  induction l with
  | nil => rfl
  | cons h r ih => simp [orderByTsDesc, length_insertTsDesc, ih]

theorem pairwise_insertTsDesc {t : Transaction} {l : List Transaction}
    (hl : l.Pairwise tsDescIdAsc) (hid : ∀ x ∈ l, t.id < x.id) :
    (insertTsDesc t l).Pairwise tsDescIdAsc := by
  induction l with
  | nil => simp [insertTsDesc]
  | cons h r ih =>
    rcases hl with _ | ⟨hrel, hr⟩
    by_cases hc : textLe h.timestamp t.timestamp = true
    · rw [insertTsDesc, if_pos hc]
      refine List.Pairwise.cons ?_ (List.Pairwise.cons hrel hr)
      intro x hx
      rcases List.mem_cons.mp hx with rfl | hx
      · exact ⟨hc, fun _ => hid x (List.mem_cons_self _ _)⟩
      · exact ⟨textLe_trans (hrel x hx).1 hc,
          fun _ => hid x (List.mem_cons_of_mem _ hx)⟩
    · rw [insertTsDesc, if_neg hc]
      refine List.Pairwise.cons ?_ (ih hr fun x hx => hid x (List.mem_cons_of_mem _ hx))
      intro x hx
      rcases mem_insertTsDesc.mp hx with rfl | hx
      · refine ⟨(textLe_total h.timestamp x.timestamp).resolve_left hc, fun heq => ?_⟩
        exact absurd (heq ▸ textLe_refl h.timestamp) hc
      · exact hrel x hx

theorem pairwise_orderByTsDesc {l : List Transaction} (hl : l.Pairwise idAsc) :
    (orderByTsDesc l).Pairwise tsDescIdAsc := by
  induction l with
  | nil => exact List.Pairwise.nil
  | cons h r ih =>
    rcases hl with _ | ⟨hid, hr⟩
    exact pairwise_insertTsDesc (ih hr)
      (fun x hx => hid x (mem_orderByTsDesc.mp hx))

/-- Arguments of one `add_transaction` call (the clock value included,
since the source reads `current_time()` inside the call). -/
structure TxnCall where
  now : String
  amount : ℚ
  transaction_type : String
  category : String
  description : String

/-- Runs a sequence of `add_transaction` calls against one account,
threading the state (a failed call leaves the state unchanged). -/
def applyCalls (db : DB) (account_id : Nat) : List TxnCall → DB
  | [] => db
  | c :: cs =>
    applyCalls (txnStep db account_id c.now c.amount c.transaction_type c.category c.description)
      account_id cs

/-- Sum of the amounts of the income-typed calls of a sequence. -/
def incomeSum (cs : List TxnCall) : ℚ :=
  ((cs.filter fun c => c.transaction_type == "income").map fun c => c.amount).sum

/-- Sum of the amounts of the expense-typed calls of a sequence. -/
def expenseSum (cs : List TxnCall) : ℚ :=
  ((cs.filter fun c => c.transaction_type == "expense").map fun c => c.amount).sum

theorem incomeSum_cons (c : TxnCall) (cs : List TxnCall) :
    incomeSum (c :: cs)
      = (if c.transaction_type = "income" then c.amount else 0) + incomeSum cs := by
  by_cases h : c.transaction_type = "income" <;>
    simp [incomeSum, List.filter_cons, h]

theorem expenseSum_cons (c : TxnCall) (cs : List TxnCall) :
    expenseSum (c :: cs)
      = (if c.transaction_type = "expense" then c.amount else 0) + expenseSum cs := by
  by_cases h : c.transaction_type = "expense" <;>
    simp [expenseSum, List.filter_cons, h]

theorem balance_zero_of_no_rows (db : DB) (aid : Nat)
    (h : db.transactions.filter (fun t => t.account_id == aid) = []) :
    get_balance db aid = 0 := by
  simp [get_balance, h, sumAmounts]

theorem get_balance_append (db db2 : DB) (t : Transaction) (aid : Nat)
    (h : db2.transactions = db.transactions ++ [t]) :
    get_balance db2 aid
      = get_balance db aid
        + (if t.account_id = aid ∧ t.type = "income" then t.amount else 0)
        - (if t.account_id = aid ∧ t.type = "expense" then t.amount else 0) := by
  by_cases h1 : t.account_id = aid
  · by_cases h2 : t.type = "income"
    · have h3 : t.type ≠ "expense" := by rw [h2]; decide
      simp [get_balance, h, sumAmounts, List.filter_append, List.filter_cons, h1, h2, h3]
      ring
    · by_cases h3 : t.type = "expense"
      · simp [get_balance, h, sumAmounts, List.filter_append, List.filter_cons, h1, h2, h3]
        ring
      · simp [get_balance, h, sumAmounts, List.filter_append, List.filter_cons, h1, h2, h3]
  · simp [get_balance, h, sumAmounts, List.filter_append, List.filter_cons, h1]

theorem get_balance_txnStep (db : DB) (aid : Nat) (c : TxnCall) :
    get_balance (txnStep db aid c.now c.amount c.transaction_type c.category c.description) aid
      = get_balance db aid
        + (if c.transaction_type = "income" then c.amount else 0)
        - (if c.transaction_type = "expense" then c.amount else 0) := by
  by_cases hty : c.transaction_type = "income" ∨ c.transaction_type = "expense"
  · have hstep : txnStep db aid c.now c.amount c.transaction_type c.category c.description
        = { db with
              transactions := db.transactions ++
                [⟨db.next_txn_id, aid, c.now, c.amount,
                  c.transaction_type, c.category, c.description⟩]
              next_txn_id := db.next_txn_id + 1 } := by
      simp [txnStep, add_transaction, hty]
    rw [hstep, get_balance_append db _ _ aid rfl]
    simp
  · have hstep : txnStep db aid c.now c.amount c.transaction_type c.category c.description = db := by
      simp [txnStep, add_transaction, hty]
    push_neg at hty
    rw [hstep]
    simp [hty.1, hty.2]

theorem applyCalls_balance (cs : List TxnCall) (db : DB) (aid : Nat) :
    get_balance (applyCalls db aid cs) aid
      = get_balance db aid + incomeSum cs - expenseSum cs := by
  induction cs generalizing db with
  | nil => simp [applyCalls, incomeSum, expenseSum]
  | cons c cs ih =>
    rw [applyCalls, ih, get_balance_txnStep, incomeSum_cons, expenseSum_cons]
    ring

/-- A reachable state with the default account and one income row. -/
def dbOneTxn : DB :=
  { accounts := [⟨1, "Primary Account", "t0"⟩]
    next_account_id := 2
    transactions := [⟨1, 1, "2024-01-01T00:00:00+0000", 5, "income", "Salary", ""⟩]
    next_txn_id := 2 }

/-- A reachable state with two rows sharing one timestamp (two inserts in
the same wall-clock second: `current_time()` has second precision). -/
def dbTie : DB :=
  { accounts := [⟨1, "Primary Account", "t0"⟩]
    next_account_id := 2
    transactions :=
      [⟨1, 1, "2024-05-05T10:00:00+0000", 3, "income", "Salary", ""⟩,
       ⟨2, 1, "2024-05-05T10:00:00+0000", 4, "income", "Bonus", ""⟩]
    next_txn_id := 3 }

/-- A reachable state with one expense stamped in the last second of
2024-03-15 (canonical storage format, offset `+0000`). -/
def dbEndOfDay : DB :=
  { accounts := [⟨1, "Primary Account", "t0"⟩]
    next_account_id := 2
    transactions := [⟨1, 1, "2024-03-15T23:59:59+0000", 7, "expense", "Food", ""⟩]
    next_txn_id := 2 }

/-- C1: over any sequence of `add_transaction` calls on one account —
income and expense interleaved arbitrarily — `get_balance` returns the
sum of the income amounts minus the sum of the expense amounts of
exactly those calls, and returns 0 while the account has no
transactions. -/
theorem get_balance_is_signed_sum (db : DB) (aid : Nat) (cs : List TxnCall)
    (h : db.transactions.filter (fun t => t.account_id == aid) = []) :
    get_balance (applyCalls db aid cs) aid = incomeSum cs - expenseSum cs
    ∧ get_balance db aid = 0 := by
  have h0 : get_balance db aid = 0 := balance_zero_of_no_rows db aid h
  refine ⟨?_, h0⟩
  rw [applyCalls_balance, h0]
  ring

/-- Witness for C1: three interleaved calls on the fresh default account
give balance 1000 − 250 + 10.5 = sum(income) − sum(expense). -/
theorem get_balance_is_signed_sum_witness :
    (initialize_database "t0").transactions.filter (fun t => t.account_id == 1) = []
    ∧ (get_balance
        (applyCalls (initialize_database "t0") 1
          [⟨"t1", 1000, "income", "Salary", ""⟩,
           ⟨"t2", 250, "expense", "Rent", ""⟩,
           ⟨"t3", mkRat 21 2, "income", "Bonus", ""⟩]) 1
        = incomeSum
            [⟨"t1", 1000, "income", "Salary", ""⟩,
             ⟨"t2", 250, "expense", "Rent", ""⟩,
             ⟨"t3", mkRat 21 2, "income", "Bonus", ""⟩]
          - expenseSum
            [⟨"t1", 1000, "income", "Salary", ""⟩,
             ⟨"t2", 250, "expense", "Rent", ""⟩,
             ⟨"t3", mkRat 21 2, "income", "Bonus", ""⟩]
        ∧ get_balance (initialize_database "t0") 1 = 0) :=
  ⟨by decide,
   get_balance_is_signed_sum (initialize_database "t0") 1
     [⟨"t1", 1000, "income", "Salary", ""⟩,
      ⟨"t2", 250, "expense", "Rent", ""⟩,
      ⟨"t3", mkRat 21 2, "income", "Bonus", ""⟩] (by decide)⟩

/-- C2 (code-bug evidence): on the freshly initialized database, whose
only account id is 1, `add_transaction` for account 999 raises nothing
and writes the row — the declared foreign key is never enforced because
the connection does not issue `PRAGMA foreign_keys = ON`. -/
theorem add_transaction_missing_account_inserts :
    (∀ a ∈ (initialize_database "t0").accounts, a.id ≠ 999)
    ∧ add_transaction (initialize_database "t0") 999 "t1" 5 "income" "Salary" ""
        = Except.ok
            ({ accounts := [⟨1, "Primary Account", "t0"⟩]
               next_account_id := 2
               transactions := [⟨1, 999, "t1", 5, "income", "Salary", ""⟩]
               next_txn_id := 2 }, 1) :=
  ⟨by decide, rfl⟩

/-- C3 counterexample: the Store-level `add_transaction` performs no
amount check — amount 0 is accepted and stored, so "always fails with
ValidationError at the Store boundary" is false, and a stored transaction
can have amount ≤ 0. -/
theorem add_transaction_accepts_nonpositive_amount :
    add_transaction (initialize_database "t0") 1 "t1" 0 "expense" "Food" ""
      = Except.ok
          ({ accounts := [⟨1, "Primary Account", "t0"⟩]
             next_account_id := 2
             transactions := [⟨1, 1, "t1", 0, "expense", "Food", ""⟩]
             next_txn_id := 2 }, 1) := rfl

/-- C3 amended: the non-positive-amount rejection happens one layer up,
in `FinanceManager._add_income` / `_add_expense`, which return before any
database call, leaving the state unchanged and creating no transaction. -/
theorem manager_rejects_nonpositive_amount (db : DB) (account_id : Nat) (now : String)
    (amount : ℚ) (transaction_type category description : String)
    (h : amount ≤ 0) :
    manager_add_transaction db account_id now amount transaction_type category description
      = (db, none) := by
  simp [manager_add_transaction, h]

/-- Witness for the amended C3 at amount 0. -/
theorem manager_rejects_nonpositive_amount_witness :
    (0 : ℚ) ≤ 0
    ∧ manager_add_transaction (initialize_database "t0") 1 "t1" 0 "expense" "Food" ""
        = (initialize_database "t0", none) :=
  ⟨le_refl 0,
   manager_rejects_nonpositive_amount (initialize_database "t0") 1 "t1" 0 "expense" "Food" ""
     (le_refl 0)⟩

/-- C4 counterexample: `get_balance` has no existence check — for
account 999, absent from the fresh database, it returns the value 0
instead of failing. -/
theorem get_balance_missing_account_returns_zero :
    (∀ a ∈ (initialize_database "t0").accounts, a.id ≠ 999)
    ∧ get_balance (initialize_database "t0") 999 = 0 :=
  ⟨by decide, by simp [get_balance, initialize_database, sumAmounts]⟩

/-- C4 amended: `get_balance` never fails; for any account id — existing
or not — it returns the transaction sum, in particular 0 when the id has
no transaction rows. -/
theorem get_balance_total_no_check (db : DB) (aid : Nat)
    (h : db.transactions.filter (fun t => t.account_id == aid) = []) :
    get_balance db aid = 0 :=
  balance_zero_of_no_rows db aid h

/-- Witness for the amended C4 at the nonexistent account 999. -/
theorem get_balance_total_no_check_witness :
    (initialize_database "t0").transactions.filter (fun t => t.account_id == 999) = []
    ∧ get_balance (initialize_database "t0") 999 = 0 :=
  ⟨rfl, get_balance_total_no_check (initialize_database "t0") 999 rfl⟩

/-- C5 counterexample: two rows of account 1 share one timestamp; the
query returns them in id-ascending (insertion) order — `ORDER BY
timestamp DESC` names no secondary key and SQLite leaves ties in scan
order — so "ties broken by id descending" is false. -/
theorem get_transactions_tie_order_counterexample :
    (dbTie.transactions.map fun t => t.id) = [1, 2]
    ∧ (dbTie.transactions.map fun t => t.timestamp)
        = ["2024-05-05T10:00:00+0000", "2024-05-05T10:00:00+0000"]
    ∧ get_transactions dbTie 1 10 none none = dbTie.transactions := by
  refine ⟨by decide, by decide, by decide⟩

/-- C5 amended: for a positive limit, the result is sorted by timestamp
descending with ties in id-ascending (insertion) order, contains only the
account's transactions, and has at most `limit` entries. -/
theorem get_transactions_sorted_filtered_limited (db : DB) (aid : Nat) (lim : Int)
    (sd ed : Option String) (hdb : db.transactions.Pairwise idAsc) (hlim : 0 < lim) :
    (get_transactions db aid lim sd ed).Pairwise tsDescIdAsc
    ∧ (∀ t ∈ get_transactions db aid lim sd ed, t.account_id = aid)
    ∧ (get_transactions db aid lim sd ed).length ≤ lim.toNat := by
  have hnneg : ¬ lim < 0 := by omega
  have hfil : (txnFilter db aid sd ed).Pairwise idAsc := hdb.filter _
  have hsorted := pairwise_orderByTsDesc hfil
  have hget : get_transactions db aid lim sd ed
      = (orderByTsDesc (txnFilter db aid sd ed)).take lim.toNat := by
    simp [get_transactions, hnneg]
  refine ⟨?_, ?_, ?_⟩
  · rw [hget]
    exact List.Pairwise.sublist (List.take_sublist _ _) hsorted
  · intro t ht
    rw [hget] at ht
    have ht2 : t ∈ orderByTsDesc (txnFilter db aid sd ed) :=
      (List.take_sublist _ _).mem ht
    have ht3 := List.of_mem_filter (mem_orderByTsDesc.mp ht2)
    simp only [Bool.and_eq_true, beq_iff_eq] at ht3
    exact ht3.1.1
  · rw [hget, List.length_take]
    exact min_le_left _ _

/-- Witness for the amended C5 on `dbTie` with limit 10. -/
theorem get_transactions_sorted_filtered_limited_witness :
    dbTie.transactions.Pairwise idAsc
    ∧ (0 : Int) < 10
    ∧ ((get_transactions dbTie 1 10 none none).Pairwise tsDescIdAsc
       ∧ (∀ t ∈ get_transactions dbTie 1 10 none none, t.account_id = 1)
       ∧ (get_transactions dbTie 1 10 none none).length ≤ (10 : Int).toNat) :=
  ⟨by decide, by decide,
   get_transactions_sorted_filtered_limited dbTie 1 10 none none (by decide) (by decide)⟩

/-- C6 (code-bug evidence): the resolved end bound for 2024-03-15 is
`2024-03-15T23:59:59` with no offset (`%z` of a naive datetime renders
empty), every stored timestamp ends in `+0000`, and the BINARY string
comparison therefore excludes the transaction stamped in the final second
of the named end day — both from `get_transactions` and from the
spending-by-category totals — while the start bound does include the
start of day.  The code's own comment says the end date is set "to end
of day". -/
theorem end_of_day_transaction_excluded :
    resolve_start_date "2024-03-15" = "2024-03-15T00:00:00"
    ∧ resolve_end_date "2024-03-15" = "2024-03-15T23:59:59"
    ∧ get_transactions dbEndOfDay 1 50 (some (resolve_start_date "2024-03-15")) none
        = dbEndOfDay.transactions
    ∧ get_transactions dbEndOfDay 1 50 none (some (resolve_end_date "2024-03-15")) = []
    ∧ get_spending_total dbEndOfDay 1 none (some (resolve_end_date "2024-03-15")) "Food" = 0
    ∧ get_spending_total dbEndOfDay 1 none none "Food" = 7 := by
  refine ⟨rfl, rfl, by decide, by decide, ?_, ?_⟩
  · simp [get_spending_total, spendingFilter, dbEndOfDay, sumAmounts,
      resolve_end_date, textLe, charListLe, List.filter]
  · simp [get_spending_total, spendingFilter, dbEndOfDay, sumAmounts, List.filter]

/-- C7 counterexample: `get_transactions` performs no limit validation —
limit 0 returns the empty list and a negative limit returns every
matching row (SQLite reads a negative `LIMIT` as "no limit"); no
`ValidationError` is possible. -/
theorem get_transactions_limit_not_validated :
    get_transactions dbOneTxn 1 0 none none = []
    ∧ get_transactions dbOneTxn 1 (-5) none none = dbOneTxn.transactions := by
  refine ⟨by decide, by decide⟩

/-- C7 amended: limit 0 yields the empty list; a negative limit yields
all rows passing the account/date filter. -/
theorem get_transactions_limit_semantics (db : DB) (aid : Nat)
    (sd ed : Option String) (lim : Int) (hneg : lim < 0) :
    get_transactions db aid 0 sd ed = []
    ∧ (get_transactions db aid lim sd ed).length = (txnFilter db aid sd ed).length := by
  constructor
  · simp [get_transactions]
  · simp [get_transactions, hneg, length_orderByTsDesc]

/-- Witness for the amended C7 at limit −5 on a one-row database. -/
theorem get_transactions_limit_semantics_witness :
    (-5 : Int) < 0
    ∧ (get_transactions dbOneTxn 1 0 none none = []
       ∧ (get_transactions dbOneTxn 1 (-5) none none).length
           = (txnFilter dbOneTxn 1 none none).length) :=
  ⟨by decide, get_transactions_limit_semantics dbOneTxn 1 none none (-5) (by decide)⟩

/-- C8: a transaction type outside income/expense is rejected with
`ValueError` before the insert, so the transaction table gains no row and
the state is unchanged. -/
theorem add_transaction_invalid_type_rejected (db : DB) (account_id : Nat) (now : String)
    (amount : ℚ) (transaction_type category description : String)
    (h1 : transaction_type ≠ "income") (h2 : transaction_type ≠ "expense") :
    add_transaction db account_id now amount transaction_type category description
      = Except.error PyError.valueError
    ∧ txnStep db account_id now amount transaction_type category description = db := by
  have hcond : ¬ (transaction_type = "income" ∨ transaction_type = "expense") := by
    tauto
  constructor
  · simp [add_transaction, hcond]
  · simp [txnStep, add_transaction, hcond]

/-- Witness for C8 with type "transfer". -/
theorem add_transaction_invalid_type_rejected_witness :
    ("transfer" : String) ≠ "income"
    ∧ ("transfer" : String) ≠ "expense"
    ∧ (add_transaction (initialize_database "t0") 1 "t1" 5 "transfer" "Misc" ""
        = Except.error PyError.valueError
       ∧ txnStep (initialize_database "t0") 1 "t1" 5 "transfer" "Misc" ""
           = initialize_database "t0") :=
  ⟨by decide, by decide,
   add_transaction_invalid_type_rejected (initialize_database "t0") 1 "t1" 5 "transfer"
     "Misc" "" (by decide) (by decide)⟩

/-- C9 counterexample: `add_account` applies no empty-name check — the
empty name is inserted and a fresh id is returned, so "fails with
ValidationError if name is empty" is false at this boundary (the guard
lives in the UI, which tests the name before calling). -/
theorem add_account_empty_name_inserts :
    add_account (initialize_database "t0") "" "t1"
      = ({ accounts := [⟨1, "Primary Account", "t0"⟩, ⟨2, "", "t1"⟩]
           next_account_id := 3
           transactions := []
           next_txn_id := 1 }, 2) := rfl

/-- C9 amended: `add_account` inserts unconditionally — any name, the
empty one included — and returns a fresh id never previously assigned
(ids are bounded by the AUTOINCREMENT counter); the empty-name rejection
is performed by the account-management UI before the call. -/
theorem add_account_fresh_id (db : DB) (name now : String)
    (h : ∀ a ∈ db.accounts, a.id < db.next_account_id) :
    (add_account db name now).2 = db.next_account_id
    ∧ (∀ a ∈ db.accounts, a.id ≠ (add_account db name now).2)
    ∧ (add_account db name now).1.accounts
        = db.accounts ++ [⟨db.next_account_id, name, now⟩]
    ∧ manager_create_account db "" now = (db, none) := by
  refine ⟨rfl, ?_, rfl, by simp [manager_create_account]⟩
  intro a ha
  have h2 := h a ha
  simp only [add_account]
  omega

/-- Witness for the amended C9: inserting the empty name into the fresh
database returns the fresh id 2. -/
theorem add_account_fresh_id_witness :
    (∀ a ∈ (initialize_database "t0").accounts, a.id < (initialize_database "t0").next_account_id)
    ∧ ((add_account (initialize_database "t0") "" "t1").2 = (initialize_database "t0").next_account_id
       ∧ (∀ a ∈ (initialize_database "t0").accounts,
            a.id ≠ (add_account (initialize_database "t0") "" "t1").2)
       ∧ (add_account (initialize_database "t0") "" "t1").1.accounts
           = (initialize_database "t0").accounts
             ++ [⟨(initialize_database "t0").next_account_id, "", "t1"⟩]
       ∧ manager_create_account (initialize_database "t0") "" "t1"
           = (initialize_database "t0", none)) :=
  ⟨by decide, add_account_fresh_id (initialize_database "t0") "" "t1" (by decide)⟩

/-- C10 counterexample: the export writes the raw Python float for the
amount — `250.0`-style, one digit after the point for an integral value —
not a fixed two-decimal rendering. -/
theorem export_amount_not_two_decimals :
    export_transactions_to_csv dbOneTxn 1 none none
      = [csvHeader, ["1", "2024-01-01 00:00", "income", "5.0", "Salary", ""]]
    ∧ hasTwoDecimalPlaces "5.0" = false := by
  refine ⟨by decide, by decide⟩

/-- C10 amended: the CSV output is the fixed header followed by exactly
one row per transaction of the filtered query, in query order, each row
carrying the id, display date, type, Python-`str` amount, category and
description of its transaction. -/
theorem export_rows_follow_query (db : DB) (aid : Nat) (sd ed : Option String) (i : Nat) :
    (export_transactions_to_csv db aid sd ed).length
      = (get_transactions db aid 1000000 sd ed).length + 1
    ∧ (export_transactions_to_csv db aid sd ed)[0]? = some csvHeader
    ∧ (export_transactions_to_csv db aid sd ed)[i + 1]?
        = ((get_transactions db aid 1000000 sd ed)[i]?).map csvRow := by
  refine ⟨by simp [export_transactions_to_csv], by simp [export_transactions_to_csv], ?_⟩
  simp [export_transactions_to_csv]

example : (initialize_database "t0").accounts.length = 1 := by decide
example : textLe "2024-03-15T23:59:59+0000" "2024-03-15T23:59:59" = false := by decide
example : textLe "2024-03-15T00:00:00" "2024-03-15T00:00:00+0000" = true := by decide
example : pyFloatStr 250 = "250.0" := by decide
example : pyFloatStr (mkRat 21 2) = "10.5" := by decide
example : pyFloatStr (-3) = "-3.0" := by decide
example : pyFloatStr (mkRat 1 20) = "0.05" := by decide
example : format_date_display "2024-03-15T14:30:00+0000" = "2024-03-15 14:30" := by decide
example : hasTwoDecimalPlaces "250.00" = true := by decide
example : hasTwoDecimalPlaces "250.0" = false := by decide
